import Mathlib

/-!
Verification of the message-context assembly and AI-response orchestration
pipeline of a conversational chat application.

The development shallowly embeds:
* the message data model (`Message`, `AIMessage`);
* the message mapper (`toAIMessages`, `prepareAIContext`, the factory
  functions and `validateMessages`);
* the legacy AI service context parsing (`buildMessagesArray`);
* the append-message and edit-message route state transitions;
* the HTTP-client / backend-client / chat-service error translation chain.

Machine dates are modelled as natural-number instants (`now` parameters);
network and persistence effects are modelled as explicit outcome parameters.
-/

namespace ChatApp

/-- AI-facing message role (the `role` enum of the wire format). -/
inductive Role where
  | system
  | user
  | assistant
deriving DecidableEq, Repr

/-- A persisted conversation message.  `sender` is the legacy origin tag
(`'user' | 'ai'` in well-formed data, but the routes copy it from request
bodies unchecked, so it is an arbitrary string here); `role` may be absent
on legacy records.  Timestamps are modelled as natural-number instants. -/
structure Message where
  sender : String
  content : String
  timestamp : Nat
  role : Option Role
deriving DecidableEq, Repr

/-- Wire-format message sent to the AI backend. -/
structure AIMessage where
  role : Role
  content : String
deriving DecidableEq, Repr

instance : DecidableEq (Except String (List Message)) := fun a b =>
  match a, b with
  | Except.ok x, Except.ok y => decidable_of_iff (x = y) (by simp)
  | Except.error x, Except.error y => decidable_of_iff (x = y) (by simp)
  | Except.ok _, Except.error _ => isFalse (by simp)
  | Except.error _, Except.ok _ => isFalse (by simp)

/-! ### Executable models of the JavaScript string operations

The JavaScript string methods used by the source (`trim`, `split`,
`startsWith`, `substring`, `includes`) are modelled structurally over the
character list of a `String`, so that every definition evaluates by
kernel reduction.  JavaScript whitespace is modelled by
`Char.isWhitespace`, which agrees on the ASCII whitespace relevant
here. -/

/-- JavaScript `String.prototype.trim` on a character list: remove
leading and trailing whitespace. -/
def jsTrimList (l : List Char) : List Char :=
  ((l.dropWhile Char.isWhitespace).reverse.dropWhile Char.isWhitespace).reverse

/-- JavaScript `String.prototype.trim`. -/
def jsTrim (s : String) : String := String.mk (jsTrimList s.data)

/-- JavaScript `String.prototype.split(': ')`: split on every
non-overlapping occurrence of the two-character separator `": "`,
scanning left to right. -/
def jsSplitColonSpace : List Char → List (List Char)
  | [] => [[]]
  | ':' :: ' ' :: rest => [] :: jsSplitColonSpace rest
  | c :: rest =>
    match jsSplitColonSpace rest with
    | [] => [[c]]
    | h :: t => (c :: h) :: t

/-- Substring occurrence test over character lists (the model of
JavaScript `String.prototype.includes`). -/
def hasInfixB (sub : List Char) : List Char → Bool
  | [] => sub.isEmpty
  | c :: rest => sub.isPrefixOf (c :: rest) || hasInfixB sub rest

/-- Role resolution performed inside `MessageMapper.toAIMessages`:
an explicit `role` field wins; otherwise `sender == 'ai'` maps to
`assistant`, `sender == 'user'` maps to `user`, and any other sender
falls back to `user` (with a logged warning in the source). -/
def resolveRole (m : Message) : Role :=
  match m.role with
  | some r => r
  | none =>
    if m.sender = "ai" then Role.assistant
    else if m.sender = "user" then Role.user
    else Role.user

/-- Model of `MessageMapper.toAIMessages`: map every message to wire format,
resolving the role and trimming the content. -/
def toAIMessages (messages : List Message) : List AIMessage :=
  messages.map (fun m => { role := resolveRole m, content := jsTrim m.content })

/-- ECMAScript `Array.prototype.slice(start)` with a single (integer)
start argument: a negative start counts from the end, clamped at 0;
a non-negative start is clamped at the length. -/
def jsSliceFrom (start : Int) (l : List α) : List α :=
  if start < 0 then
    l.drop (l.length - (-start).toNat)
  else
    l.drop (min start.toNat l.length)

/-- Model of `MessageMapper.prepareAIContext`: take the last `maxContextMessages`
messages via `messages.slice(-maxContextMessages)` (chronological order
preserved) and convert them to wire format. -/
def prepareAIContext (messages : List Message) (maxContextMessages : Int := 10) :
    List AIMessage :=
  toAIMessages (jsSliceFrom (-maxContextMessages) messages)

/-- Model of `MessageMapper.createSystemMessage`: `sender = 'ai'` with `role = 'system'`
for backward display compatibility; content trimmed. -/
def createSystemMessage (content : String) (now : Nat) : Message :=
  { sender := "ai", content := jsTrim content, timestamp := now, role := some Role.system }

/-- Model of `MessageMapper.createUserMessage`. -/
def createUserMessage (content : String) (now : Nat) : Message :=
  { sender := "user", content := jsTrim content, timestamp := now, role := some Role.user }

/-- Model of `MessageMapper.createAssistantMessage`. -/
def createAssistantMessage (content : String) (now : Nat) : Message :=
  { sender := "ai", content := jsTrim content, timestamp := now, role := some Role.assistant }

/-- Issues reported by `MessageMapper.validateMessages` for one message.
The source also tests `!message.timestamp`, but a JavaScript `Date` object
is always truthy, so that test cannot fire on the `Message` shape modelled
here (timestamps always present). -/
def messageIssues (i : Nat) (m : Message) : List String :=
  (if jsTrim m.content = "" then ["Message at index " ++ toString i ++ " has empty content"]
   else []) ++
  (if m.sender = "" ∧ m.role = none then
     ["Message at index " ++ toString i ++ " has no sender or role"]
   else [])

/-- Model of `MessageMapper.validateMessages`: returns `(valid, issues)`. -/
def validateMessages (messages : List Message) : Bool × List String :=
  let issues := (messages.enum.map (fun p => messageIssues p.1 p.2)).flatten
  (issues.isEmpty, issues)

/-! ## Legacy AI service (`aiService.ts`): string-based context parsing -/

/-- Role inference used by `AIService.buildMessagesArray` on a parsed
`"sender: content"` context entry. -/
def roleOfContextSender (s : String) : Role :=
  if s = "ai" then Role.assistant
  else if s = "system" then Role.system
  else Role.user

/-- Parsing of one conversation-context string inside
`AIService.buildMessagesArray`: a `"system: "`-prefixed entry becomes a
system wire message; otherwise the entry is split on `": "` (JavaScript
`split(': ', 2)`) and kept only when both parts are non-empty. -/
def parseContextMessage (c : String) : Option AIMessage :=
  if "system: ".data.isPrefixOf c.data then
    some { role := Role.system, content := jsTrim (String.mk (c.data.drop 8)) }
  else
    match (jsSplitColonSpace c.data).take 2 with
    | [s, cnt] =>
      if s ≠ [] ∧ cnt ≠ [] then
        some { role := roleOfContextSender (String.mk s), content := jsTrim (String.mk cnt) }
      else none
    | _ => none

/-- Model of `AIService.buildMessagesArray`: parse every context entry, then push
the current user message (role `user`, content untrimmed) at the end. -/
def buildMessagesArray (userMessage : String) (conversationContext : List String) :
    List AIMessage :=
  conversationContext.filterMap parseContextMessage ++
    [{ role := Role.user, content := userMessage }]

/-! ## Append-message route (`conversations/[id]/messages/route.ts` POST) -/

/-- Request body of the append-message route.  `none` models an absent
`systemPrompt` field. -/
structure AppendBody where
  content : String
  sender : String
  systemPrompt : Option String
deriving DecidableEq, Repr

/-- JavaScript truthiness of the optional `systemPrompt` string: absent
(`undefined`) and the empty string are falsy. -/
def jsTruthyStr : Option String → Bool
  | none => false
  | some s => decide (s ≠ "")

/-- System-prompt step of the append route:
`if (systemPrompt && !conversation.messages.some(m => m.role === 'system')) unshift(...)`.
The new system message keeps the raw (untrimmed) prompt text. -/
def appendUpsertSystem (msgs : List Message) (systemPrompt : Option String) (now : Nat) :
    List Message :=
  if jsTruthyStr systemPrompt = true ∧
      msgs.any (fun m => m.role = some Role.system) = false then
    { sender := "ai", content := systemPrompt.getD "", timestamp := now,
      role := some Role.system } :: msgs
  else msgs

/-- The user message pushed by the append route; its role is derived from
the request's `sender` field and is `undefined` for unknown senders. -/
def appendUserMessage (content sender : String) (now : Nat) : Message :=
  { sender := sender, content := content, timestamp := now,
    role := if sender = "user" then some Role.user
            else if sender = "ai" then some Role.assistant
            else none }

/-- Context-string rendering in the append route: `"system: <content>"`
for system messages, `"<sender>: <content>"` otherwise. -/
def contextString (m : Message) : String :=
  if m.role = some Role.system then "system: " ++ m.content
  else m.sender ++ ": " ++ m.content

/-- The `conversation.messages.slice(-10).map(...)` step of the append route. -/
def conversationContext (msgs : List Message) : List String :=
  (jsSliceFrom (-10) msgs).map contextString

/-- The wire-format message list the append route hands to the AI backend
(through `aiService.getAIResponse(content, conversationContext, ...)`),
given the message list after the new user message has been pushed.
`none` when the request is rejected or no generation happens. -/
def appendRouteWire (msgs : List Message) (body : AppendBody) (now : Nat) :
    Option (List AIMessage) :=
  if body.content = "" ∨ body.sender = "" then none
  else
    let msgs1 := appendUpsertSystem msgs body.systemPrompt now
    let msgs2 := msgs1 ++ [appendUserMessage body.content body.sender now]
    if body.sender = "user" then
      some (buildMessagesArray body.content (conversationContext msgs2))
    else none

/-- Outcome of the `aiService.getAIResponse` call made by the append
route: a returned response string, or a thrown error carrying a message. -/
inductive AppendGen where
  | ok (response : String)
  | thrown (message : String)
deriving DecidableEq, Repr

/-- The assistant message the append route pushes after generation:
the response on success, a visible `"❌ **AI Error**: ..."` message on a
thrown error. -/
def appendAIMessage : AppendGen → Nat → Message
  | AppendGen.ok s, now =>
    { sender := "ai", content := s, timestamp := now, role := some Role.assistant }
  | AppendGen.thrown m, now =>
    { sender := "ai", content := "❌ **AI Error**: " ++ m, timestamp := now,
      role := some Role.assistant }

/-- State transition of the append-message route on the conversation's
message list.  `Except.error` models the request-level failure responses
(missing fields), under which nothing is mutated or saved. -/
def appendMessage (msgs : List Message) (body : AppendBody) (now : Nat)
    (gen : AppendGen) : Except String (List Message) :=
  if body.content = "" ∨ body.sender = "" then
    Except.error "Missing required fields"
  else
    let msgs1 := appendUpsertSystem msgs body.systemPrompt now
    let msgs2 := msgs1 ++ [appendUserMessage body.content body.sender now]
    if body.sender = "user" then
      Except.ok (msgs2 ++ [appendAIMessage gen now])
    else
      Except.ok msgs2

/-! ## Edit-message route (`conversations/[id]/edit-message/route.ts` PUT) -/

/-- A message is visible iff its role is not `system`. -/
def isVisible (m : Message) : Bool := decide (m.role ≠ some Role.system)

/-- The user-visible messages: `messages.filter(m => m.role !== 'system')`. -/
def visibleMessages (msgs : List Message) : List Message := msgs.filter isVisible

/-- JavaScript `Array.prototype.findIndex` returning an optional index
(the source's `-1` sentinel becomes `none`). -/
def jsFindIndex (p : Message → Bool) : List Message → Option Nat
  | [] => none
  | m :: rest => if p m then some 0 else (jsFindIndex p rest).map (· + 1)

/-- System-prompt step of the edit route: when `systemPrompt` is a string,
an all-whitespace prompt removes the existing system message (no-op when
none), and otherwise the prompt replaces the existing system message in
place or is inserted at position 0. -/
def editUpsertSystem (msgs : List Message) (systemPrompt : Option String) (now : Nat) :
    List Message :=
  match systemPrompt with
  | none => msgs
  | some s =>
    let existingIdx := jsFindIndex (fun m => decide (m.role = some Role.system)) msgs
    if jsTrim s = "" then
      match existingIdx with
      | some i => msgs.eraseIdx i
      | none => msgs
    else
      match existingIdx with
      | some i => msgs.set i (createSystemMessage s now)
      | none => createSystemMessage s now :: msgs

/-- The edit route's loop translating a visible index into an absolute
index in the full message list: the first position holding a non-system
message preceded by exactly `k` non-system messages. -/
def findVisibleIdx : List Message → Nat → Option Nat
  | [], _ => none
  | m :: rest, k =>
    if isVisible m then
      if k = 0 then some 0
      else (findVisibleIdx rest (k - 1)).map (· + 1)
    else (findVisibleIdx rest k).map (· + 1)

/-- In-place overwrite of a message's content and timestamp at an absolute
index, as done on the edited message. -/
def overwriteAt (msgs : List Message) (i : Nat) (newContent : String) (now : Nat) :
    List Message :=
  match msgs, i with
  | [], _ => []
  | m :: rest, 0 => { m with content := newContent, timestamp := now } :: rest
  | m :: rest, Nat.succ j => m :: overwriteAt rest j newContent now

/-- Outcome of the `chatService.generateResponse` call made by the edit
route: a successful result with content, a failed `ServiceResult` carrying
an error message, or a thrown error. -/
inductive EditGen where
  | ok (content : String)
  | svcErr (message : String)
  | thrown
deriving DecidableEq, Repr

/-- The assistant message the edit route pushes after generation
(`result.error?.message || 'Unknown AI service error'` on a failed
result). -/
def editAIMessage : EditGen → Nat → Message
  | EditGen.ok s, now => createAssistantMessage s now
  | EditGen.svcErr m, now =>
    createAssistantMessage
      ("❌ **AI Error**: " ++ (if m = "" then "Unknown AI service error" else m)) now
  | EditGen.thrown, now =>
    createAssistantMessage
      "❌ **Unexpected Error**: Failed to generate AI response. Please try again." now

/-- Request body of the edit-message route.  `messageIndex` arrives as an
arbitrary JSON integer. -/
structure EditBody where
  messageIndex : Int
  newContent : String
  systemPrompt : Option String
deriving DecidableEq, Repr

/-- State transition of the edit-message route on the conversation's
message list: guards (in source order), system-prompt upsert, overwrite of
the edited message, truncation of everything after it, and append of the
generated (or error) assistant message.  `Except.error` models the
request-level failure responses, under which nothing is mutated or
saved. -/
def editMessage (msgs : List Message) (body : EditBody) (now : Nat)
    (gen : EditGen) : Except String (List Message) :=
  if body.newContent = "" then Except.error "Missing required fields"
  else if body.messageIndex < 0 ∨
      ((visibleMessages msgs).length : Int) ≤ body.messageIndex then
    Except.error "Invalid message index"
  else
    match (visibleMessages msgs)[body.messageIndex.toNat]? with
    | none => Except.error "Invalid message index"
    | some target =>
      if target.sender ≠ "user" then Except.error "Can only edit user messages"
      else
        match findVisibleIdx (editUpsertSystem msgs body.systemPrompt now)
            body.messageIndex.toNat with
        | none => Except.error "Message not found"
        | some i =>
          Except.ok ((overwriteAt (editUpsertSystem msgs body.systemPrompt now) i
              (jsTrim body.newContent) now).take (i + 1) ++ [editAIMessage gen now])

/-! ## Operation sequences over a conversation -/

/-- One mutation operation against a stored conversation. -/
inductive Op where
  | append (body : AppendBody) (gen : AppendGen)
  | edit (body : EditBody) (gen : EditGen)
deriving DecidableEq, Repr

/-- Apply one operation: a request-level error leaves the stored message
list unchanged (the conversation is only saved on the success paths). -/
def applyOp (msgs : List Message) (now : Nat) : Op → List Message
  | Op.append body gen =>
    match appendMessage msgs body now gen with
    | Except.ok l => l
    | Except.error _ => msgs
  | Op.edit body gen =>
    match editMessage msgs body now gen with
    | Except.ok l => l
    | Except.error _ => msgs

/-- Run a sequence of operations left to right. -/
def runOps (msgs : List Message) (now : Nat) (ops : List Op) : List Message :=
  ops.foldl (fun l op => applyOp l now op) msgs

/-! ## Chat orchestration service and the error translation chain
(`httpClient.ts`, `aiBackendClient.ts`, `chatService.ts`) -/

/-- JavaScript `String.prototype.includes`: substring test. -/
def jsIncludes (s sub : String) : Bool := hasInfixB sub.data s.data

/-- Errors thrown below the chat service boundary, tagged by their
JavaScript class: `HttpError` (carrying status, statusText and body text),
`TypeError` (the runtime's network-failure rejection, e.g. `fetch failed`),
the `AbortError` a fired `AbortController` produces, and any other
`Error`. -/
inductive ClientError where
  | httpError (status : Nat) (statusText : String) (bodyText : String)
  | typeError (message : String)
  | abortError (message : String)
  | otherError (message : String)
deriving DecidableEq, Repr

/-- The `message` property of a thrown error (`HttpError`'s constructor
sets it to `HTTP <status>: <statusText>`). -/
def clientErrorMessage : ClientError → String
  | ClientError.httpError status statusText _ =>
    "HTTP " ++ toString status ++ ": " ++ statusText
  | ClientError.typeError m => m
  | ClientError.abortError m => m
  | ClientError.otherError m => m

/-- The catch block of `HttpClient.request`: an `HttpError` is rethrown
unchanged; a `TypeError` whose message mentions `fetch` is translated into
a connection error naming the full request URL; everything else (including
an abort) is rethrown unchanged. -/
def httpRequestCatch (url : String) (e : ClientError) : ClientError :=
  match e with
  | ClientError.httpError .. => e
  | ClientError.typeError m =>
    if jsIncludes m "fetch" then
      ClientError.otherError
        ("Failed to connect to " ++ url ++ ". Please check if the service is running.")
    else e
  | _ => e

/-- The catch block of `AIBackendClient.generateResponse`: an `HttpError`
(non-2xx response) is wrapped as `AI Backend API error (<status>): <body>`
with the statusText as fallback body; everything else is rethrown. -/
def aiBackendCatch (e : ClientError) : ClientError :=
  match e with
  | ClientError.httpError status statusText bodyText =>
    ClientError.otherError
      ("AI Backend API error (" ++ toString status ++ "): " ++
        (if bodyText = "" then statusText else bodyText))
  | _ => e

/-- The error a fetch-level failure `e` presents to `ChatService`'s catch
block after passing through `HttpClient.request` and
`AIBackendClient.generateResponse`. -/
def clientPipelineError (url : String) (e : ClientError) : ClientError :=
  aiBackendCatch (httpRequestCatch url e)

/-- Modelled from the runtime: when the `HttpClient` timeout fires,
`controller.abort()` makes `fetch` reject with a DOMException named
`AbortError` whose message is the standard abort message; it is neither an
`HttpError` nor a `TypeError`. -/
def timeoutAbortError : ClientError :=
  ClientError.abortError "This operation was aborted"

/-- Structured error of a failed `ServiceResult` (stack-trace details
omitted). -/
structure SvcError where
  code : String
  message : String
deriving DecidableEq, Repr

/-- The `ServiceResult` discriminated union. -/
inductive ServiceResult (α : Type) where
  | ok (data : α)
  | fail (error : SvcError)
deriving DecidableEq, Repr

/-- Successful chat response data. -/
structure ChatResponse where
  content : String
  model : String
  provider : String
deriving DecidableEq, Repr

/-- Per-request configuration override.  The sampling parameters
(`temperature`, `topP`, ...) are forwarded verbatim to the backend payload
and never influence control flow, so only the fields read back by the
service are modelled. -/
structure ChatConfig where
  provider : Option String
  model : Option String
deriving DecidableEq, Repr

/-- The `ChatRequest` shape: the complete message history plus optional overrides. -/
structure ChatRequest where
  messages : List Message
  config : Option ChatConfig
  maxContextMessages : Option Int
deriving DecidableEq, Repr

/-- Effective model after merging the request config over the service
defaults. -/
def effectiveModel (req : ChatRequest) : String :=
  match req.config with
  | none => "gemini-2.0-flash"
  | some c => c.model.getD "gemini-2.0-flash"

/-- Effective provider after merging the request config over the service
defaults. -/
def effectiveProvider (req : ChatRequest) : String :=
  match req.config with
  | none => "google"
  | some c => c.provider.getD "google"

/-- Model of `const maxContext = request.maxContextMessages || 10`: an absent field
and the falsy value `0` both yield the default 10. -/
def effectiveMaxContext (req : ChatRequest) : Int :=
  match req.maxContextMessages with
  | none => 10
  | some v => if v = 0 then 10 else v

/-- The error classification in `ChatService.generateResponse`'s catch
block: every error reaching it from the provider chain is an `Error`
instance, so its message is inspected — `Failed to connect` marks a
connection error, `Backend API error` a backend API error, anything else
the generic service error. -/
def classifyError (e : ClientError) : SvcError :=
  let msg := clientErrorMessage e
  { code :=
      if jsIncludes msg "Failed to connect" then "BACKEND_CONNECTION_ERROR"
      else if jsIncludes msg "Backend API error" then "BACKEND_API_ERROR"
      else "AI_SERVICE_ERROR",
    message := msg }

/-- Outcome of the provider call inside `ChatService.generateResponse`. -/
inductive ProviderOutcome where
  | ok (content : String)
  | thrown (e : ClientError)
deriving DecidableEq, Repr

/-- Model of `ChatService.generateResponse`: validation, config merge, context
slicing, empty-slice rejection, provider call, and catch-block
classification.  The function is total — the source wraps the entire body
in `try/catch` and returns a `ServiceResult` on every path, never letting
an exception escape. -/
def generateResponse (req : ChatRequest) (outcome : ProviderOutcome) :
    ServiceResult ChatResponse :=
  if (validateMessages req.messages).1 = false then
    ServiceResult.fail
      { code := "INVALID_MESSAGES", message := "Message validation failed" }
  else
    let aiMessages := prepareAIContext req.messages (effectiveMaxContext req)
    if aiMessages.length = 0 then
      ServiceResult.fail
        { code := "NO_MESSAGES", message := "No valid messages found for AI processing" }
    else
      match outcome with
      | ProviderOutcome.ok content =>
        ServiceResult.ok
          { content := content, model := effectiveModel req,
            provider := effectiveProvider req }
      | ProviderOutcome.thrown e => ServiceResult.fail (classifyError e)

/-! ## Helper lemmas -/

lemma isPrefixOf_append_self (sub suf : List Char) :
    sub.isPrefixOf (sub ++ suf) = true := by
  induction sub with
  | nil => simp [List.isPrefixOf]
  | cons a as ih => simp [List.isPrefixOf, ih]

lemma hasInfixB_of_decomp :
    ∀ (pre sub suf l : List Char), l = pre ++ (sub ++ suf) → hasInfixB sub l = true := by
  intro pre
  induction pre with
  | nil =>
    intro sub suf l h
    subst h
    rw [List.nil_append]
    cases hsub : sub ++ suf with
    | nil =>
      rw [List.append_eq_nil] at hsub
      simp [hasInfixB, hsub.1]
    | cons c t =>
      rw [hasInfixB, ← hsub, isPrefixOf_append_self]
      simp
  | cons p pre' ih =>
    intro sub suf l h
    subst h
    rw [List.cons_append, hasInfixB, ih sub suf _ rfl]
    simp

lemma jsIncludes_of_decomp (s sub : String) (pre suf : List Char)
    (h : s.data = pre ++ (sub.data ++ suf)) : jsIncludes s sub = true :=
  hasInfixB_of_decomp pre sub.data suf s.data h

/-! ## C9: role-inference precedence -/

/-- C9: `toAIMessages` resolves the wire role with explicit precedence —
an explicit `role` field always wins; otherwise sender `'ai'` maps to
`assistant` and sender `'user'` maps to `user`; any other sender defaults
to `user`. -/
theorem role_inference_precedence (m : Message) :
    (∀ r, m.role = some r → resolveRole m = r) ∧
    (m.role = none → m.sender = "ai" → resolveRole m = Role.assistant) ∧
    (m.role = none → m.sender = "user" → resolveRole m = Role.user) ∧
    (m.role = none → m.sender ≠ "ai" → m.sender ≠ "user" → resolveRole m = Role.user) ∧
    toAIMessages [m] = [{ role := resolveRole m, content := jsTrim m.content }] := by
  refine ⟨?_, ?_, ?_, ?_, rfl⟩
  · intro r h; simp [resolveRole, h]
  · intro h hs; simp [resolveRole, h, hs]
  · intro h hs; simp [resolveRole, h, hs]
  · intro h h1 h2; simp [resolveRole, h, h1, h2]

/-- Witness for C9 at concrete messages. -/
theorem role_inference_precedence_witness :
    resolveRole { sender := "ai", content := "x", timestamp := 0, role := none } =
      Role.assistant ∧
    resolveRole { sender := "bot", content := "x", timestamp := 0, role := some Role.system } =
      Role.system :=
  ⟨(role_inference_precedence _).2.1 rfl rfl,
   (role_inference_precedence _).1 Role.system rfl⟩

/-! ## C10: zero context window -/

/-- C10: `prepareAIContext(messages, 0)` returns the mapped form of all
messages (because `slice(-0)` is `slice(0)`), and `ChatService` treats a
`maxContextMessages` of `0` (like an absent one) as the default 10. -/
theorem zero_context_window_behavior (msgs : List Message) :
    prepareAIContext msgs 0 = toAIMessages msgs ∧
    effectiveMaxContext { messages := msgs, config := none, maxContextMessages := some 0 } = 10 ∧
    effectiveMaxContext { messages := msgs, config := none, maxContextMessages := none } = 10 := by
  refine ⟨?_, rfl, rfl⟩
  simp [prepareAIContext, jsSliceFrom]

/-! ## C1: the append route duplicates the new user message -/

/-- C1: evaluation of the append route's wire-building at the failing
input — an empty conversation receiving user message `"hi"`.  The context
slice already ends with the pushed user message, and
`AIService.buildMessagesArray` appends the current user message again, so
the list sent to the backend contains it twice, contradicting the
documented (and spec-stated) no-duplication behavior. -/
theorem append_route_duplicates_new_user_message :
    appendRouteWire [] { content := "hi", sender := "user", systemPrompt := none } 0 =
      some [{ role := Role.user, content := "hi" }, { role := Role.user, content := "hi" }] ∧
    (buildMessagesArray "hi" (conversationContext [appendUserMessage "hi" "user" 0])).count
      { role := Role.user, content := "hi" } = 2 := by
  constructor <;> decide

/-! ## C2: append-route system-prompt handling -/

/-- C2 counterexample: on a conversation whose single message is a system
message with content `"old"`, appending with `systemPrompt = ""` leaves
the system message in place (the claim says it is removed), and appending
with `systemPrompt = "NEW"` leaves its content `"old"` (the claim says it
is replaced in place). -/
theorem append_system_prompt_claim_counterexample :
    appendMessage
        [{ sender := "ai", content := "old", timestamp := 0, role := some Role.system }]
        { content := "hi", sender := "user", systemPrompt := some "" } 1 (AppendGen.ok "resp") =
      Except.ok
        [{ sender := "ai", content := "old", timestamp := 0, role := some Role.system },
         { sender := "user", content := "hi", timestamp := 1, role := some Role.user },
         { sender := "ai", content := "resp", timestamp := 1, role := some Role.assistant }] ∧
    appendMessage
        [{ sender := "ai", content := "old", timestamp := 0, role := some Role.system }]
        { content := "hi", sender := "user", systemPrompt := some "NEW" } 1 (AppendGen.ok "resp") =
      Except.ok
        [{ sender := "ai", content := "old", timestamp := 0, role := some Role.system },
         { sender := "user", content := "hi", timestamp := 1, role := some Role.user },
         { sender := "ai", content := "resp", timestamp := 1, role := some Role.assistant }] := by
  constructor <;> decide

/-- C2 amended: in the append-message operation, a truthy (non-empty)
`systemPrompt` inserts a new system message at position 0 only when no
system message exists; when a system message is already present, or when
`systemPrompt` is the empty string or omitted, the system-prompt step
changes nothing (no removal, no in-place replacement). -/
theorem append_system_prompt_amended (msgs : List Message) (sp : Option String) (now : Nat) :
    (jsTruthyStr sp = true → msgs.any (fun m => m.role = some Role.system) = false →
      appendUpsertSystem msgs sp now =
        { sender := "ai", content := sp.getD "", timestamp := now,
          role := some Role.system } :: msgs) ∧
    (jsTruthyStr sp = false → appendUpsertSystem msgs sp now = msgs) ∧
    (msgs.any (fun m => m.role = some Role.system) = true →
      appendUpsertSystem msgs sp now = msgs) := by
  refine ⟨?_, ?_, ?_⟩
  · intro h1 h2; simp [appendUpsertSystem, h1, h2]
  · intro h1; simp [appendUpsertSystem, h1]
  · intro h1; simp [appendUpsertSystem, h1]

/-- Witness for the amended C2 at concrete inputs. -/
theorem append_system_prompt_amended_witness :
    appendUpsertSystem [] (some "be terse") 3 =
      [{ sender := "ai", content := "be terse", timestamp := 3, role := some Role.system }] ∧
    appendUpsertSystem
      [{ sender := "ai", content := "old", timestamp := 0, role := some Role.system }]
      (some "NEW") 3 =
      [{ sender := "ai", content := "old", timestamp := 0, role := some Role.system }] :=
  ⟨(append_system_prompt_amended [] (some "be terse") 3).1 (by decide) (by decide),
   (append_system_prompt_amended _ (some "NEW") 3).2.2 (by decide)⟩

/-! ## C8: timeout classification -/

/-- C8 counterexample: the abort error produced by the fired timeout
passes through the HTTP client and backend client unchanged (it is
neither an `HttpError` nor a `TypeError`), and the orchestration service
classifies it as `AI_SERVICE_ERROR` — not as the claimed
`BACKEND_CONNECTION_ERROR`. -/
theorem timeout_not_connection_error_counterexample :
    generateResponse
        { messages := [{ sender := "user", content := "Hello", timestamp := 0,
                         role := some Role.user }],
          config := none, maxContextMessages := none }
        (ProviderOutcome.thrown
          (clientPipelineError "http://localhost:8000/invoke_basic_model" timeoutAbortError)) =
      ServiceResult.fail
        { code := "AI_SERVICE_ERROR", message := "This operation was aborted" } ∧
    "AI_SERVICE_ERROR" ≠ "BACKEND_CONNECTION_ERROR" := by
  constructor <;> decide

/-- C8 amended: when the backend client's timeout fires, the resulting
abort error is rethrown unchanged by the transport layers, and — because
its message contains neither `Failed to connect` nor `Backend API error`
— the orchestration service returns it as an `AI_SERVICE_ERROR` result,
not as a connection failure. -/
theorem timeout_classified_ai_service_error (req : ChatRequest) (url : String)
    (hv : (validateMessages req.messages).1 = true)
    (hne : (prepareAIContext req.messages (effectiveMaxContext req)).length ≠ 0) :
    generateResponse req
        (ProviderOutcome.thrown (clientPipelineError url timeoutAbortError)) =
      ServiceResult.fail
        { code := "AI_SERVICE_ERROR", message := "This operation was aborted" } := by
  simp only [generateResponse, hv, Bool.true_eq_false, if_false, hne, if_neg hne]
  rfl

/-- Witness for the amended C8 at a concrete request. -/
theorem timeout_classified_ai_service_error_witness :
    generateResponse
        { messages := [{ sender := "user", content := "Hello", timestamp := 0,
                         role := some Role.user }],
          config := none, maxContextMessages := none }
        (ProviderOutcome.thrown (clientPipelineError "http://a" timeoutAbortError)) =
      ServiceResult.fail
        { code := "AI_SERVICE_ERROR", message := "This operation was aborted" } :=
  timeout_classified_ai_service_error _ "http://a" (by decide) (by decide)

/-! ## C7: chat-service error classification -/

lemma generateResponse_thrown (req : ChatRequest) (e : ClientError)
    (hv : (validateMessages req.messages).1 = true)
    (hne : (prepareAIContext req.messages (effectiveMaxContext req)).length ≠ 0) :
    generateResponse req (ProviderOutcome.thrown e) =
      ServiceResult.fail (classifyError e) := by
  simp only [generateResponse, hv, Bool.true_eq_false, if_false, if_neg hne]

lemma connection_message_data (url : String) :
    ("Failed to connect to " ++ url ++
        ". Please check if the service is running.").data =
      "Failed to connect to ".data ++ url.data ++
        ". Please check if the service is running.".data := by
  simp [String.data_append]

lemma classifyError_connection (url m : String) (hm : jsIncludes m "fetch" = true) :
    classifyError (clientPipelineError url (ClientError.typeError m)) =
      { code := "BACKEND_CONNECTION_ERROR",
        message := "Failed to connect to " ++ url ++
          ". Please check if the service is running." } := by
  have hmsg : clientPipelineError url (ClientError.typeError m) =
      ClientError.otherError ("Failed to connect to " ++ url ++
        ". Please check if the service is running.") := by
    simp [clientPipelineError, httpRequestCatch, hm, aiBackendCatch]
  rw [hmsg]
  have hmark : jsIncludes ("Failed to connect to " ++ url ++
      ". Please check if the service is running.") "Failed to connect" = true := by
    apply jsIncludes_of_decomp _ _ []
      (" to ".data ++ url.data ++ ". Please check if the service is running.".data)
    rw [connection_message_data, List.nil_append]
    have h0 : ("Failed to connect to ").data = "Failed to connect".data ++ " to ".data := by
      decide
    rw [h0]
    simp [List.append_assoc]
  simp [classifyError, clientErrorMessage, hmark]

lemma classifyError_api (status : Nat) (statusText bodyText : String)
    (hm : jsIncludes ("AI Backend API error (" ++ toString status ++ "): " ++
      (if bodyText = "" then statusText else bodyText)) "Failed to connect" = false) :
    classifyError (clientPipelineError url (ClientError.httpError status statusText bodyText)) =
      { code := "BACKEND_API_ERROR",
        message := "AI Backend API error (" ++ toString status ++ "): " ++
          (if bodyText = "" then statusText else bodyText) } := by
  have hmsg : clientPipelineError url (ClientError.httpError status statusText bodyText) =
      ClientError.otherError ("AI Backend API error (" ++ toString status ++ "): " ++
        (if bodyText = "" then statusText else bodyText)) := by
    simp [clientPipelineError, httpRequestCatch, aiBackendCatch]
  rw [hmsg]
  have hmark : jsIncludes ("AI Backend API error (" ++ toString status ++ "): " ++
      (if bodyText = "" then statusText else bodyText)) "Backend API error" = true := by
    apply jsIncludes_of_decomp _ _ "AI ".data
      (" (".data ++ (toString status).data ++ "): ".data ++
        (if bodyText = "" then statusText else bodyText).data)
    have h0 : ("AI Backend API error (").data =
        "AI ".data ++ "Backend API error".data ++ " (".data := by decide
    simp only [String.data_append, h0]
    simp [List.append_assoc]
  simp [classifyError, clientErrorMessage, hm, hmark]

/-- C7 counterexample: classification is by substring inspection of the
error message, and `Failed to connect` is checked before
`Backend API error` — so a non-2xx backend response whose body happens to
contain `Failed to connect` is returned as `BACKEND_CONNECTION_ERROR`,
not as the claimed `BACKEND_API_ERROR`. -/
theorem backend_api_error_misclassified_counterexample :
    generateResponse
        { messages := [{ sender := "user", content := "Hello", timestamp := 0,
                         role := some Role.user }],
          config := none, maxContextMessages := none }
        (ProviderOutcome.thrown
          (clientPipelineError "http://localhost:8000/invoke_basic_model"
            (ClientError.httpError 500 "Internal Server Error"
              "Failed to connect to upstream model provider"))) =
      ServiceResult.fail
        { code := "BACKEND_CONNECTION_ERROR",
          message :=
            "AI Backend API error (500): Failed to connect to upstream model provider" } ∧
    "BACKEND_CONNECTION_ERROR" ≠ "BACKEND_API_ERROR" := by
  constructor <;> decide

/-- C7 amended: `ChatService.generateResponse` returns every thrown
client error as a failed `ServiceResult` (the embedding is total by
construction, mirroring the source's all-enclosing `try/catch`):
a network `TypeError` becomes `BACKEND_CONNECTION_ERROR` whose message
names the backend address and hints to check the service is running; a
non-2xx response becomes `BACKEND_API_ERROR` provided its wrapped message
does not contain the earlier-checked marker `Failed to connect`; any
other error whose message contains neither marker becomes
`AI_SERVICE_ERROR`. -/
theorem chat_service_error_classification (req : ChatRequest) (url : String)
    (hv : (validateMessages req.messages).1 = true)
    (hne : (prepareAIContext req.messages (effectiveMaxContext req)).length ≠ 0) :
    (∀ m, jsIncludes m "fetch" = true →
      generateResponse req
          (ProviderOutcome.thrown (clientPipelineError url (ClientError.typeError m))) =
        ServiceResult.fail
          { code := "BACKEND_CONNECTION_ERROR",
            message := "Failed to connect to " ++ url ++
              ". Please check if the service is running." } ∧
      jsIncludes ("Failed to connect to " ++ url ++
        ". Please check if the service is running.") url = true ∧
      jsIncludes ("Failed to connect to " ++ url ++
          ". Please check if the service is running.")
        "Please check if the service is running" = true) ∧
    (∀ status statusText bodyText,
      jsIncludes ("AI Backend API error (" ++ toString status ++ "): " ++
        (if bodyText = "" then statusText else bodyText)) "Failed to connect" = false →
      generateResponse req
          (ProviderOutcome.thrown
            (clientPipelineError url (ClientError.httpError status statusText bodyText))) =
        ServiceResult.fail
          { code := "BACKEND_API_ERROR",
            message := "AI Backend API error (" ++ toString status ++ "): " ++
              (if bodyText = "" then statusText else bodyText) }) ∧
    (∀ m, jsIncludes m "Failed to connect" = false →
      jsIncludes m "Backend API error" = false →
      generateResponse req
          (ProviderOutcome.thrown (clientPipelineError url (ClientError.otherError m))) =
        ServiceResult.fail { code := "AI_SERVICE_ERROR", message := m }) := by
  refine ⟨?_, ?_, ?_⟩
  · intro m hm
    refine ⟨?_, ?_, ?_⟩
    · rw [generateResponse_thrown req _ hv hne, classifyError_connection url m hm]
    · apply jsIncludes_of_decomp _ _ "Failed to connect to ".data
        ". Please check if the service is running.".data
      rw [connection_message_data]
      simp [List.append_assoc]
    · apply jsIncludes_of_decomp _ _
        ("Failed to connect to ".data ++ url.data ++ ". ".data) ".".data
      rw [connection_message_data]
      have h0 : (". Please check if the service is running.").data =
          ". ".data ++ "Please check if the service is running".data ++ ".".data := by
        decide
      rw [h0]
      simp [List.append_assoc]
  · intro status statusText bodyText hm
    rw [generateResponse_thrown req _ hv hne, classifyError_api status statusText bodyText hm]
  · intro m hm1 hm2
    rw [generateResponse_thrown req _ hv hne]
    simp [clientPipelineError, httpRequestCatch, aiBackendCatch, classifyError,
      clientErrorMessage, hm1, hm2]

/-- Witness for the amended C7 at concrete errors. -/
theorem chat_service_error_classification_witness :
    (generateResponse
        { messages := [{ sender := "user", content := "Hello", timestamp := 0,
                         role := some Role.user }],
          config := none, maxContextMessages := none }
        (ProviderOutcome.thrown
          (clientPipelineError "http://localhost:8000/invoke_basic_model"
            (ClientError.typeError "fetch failed"))) =
      ServiceResult.fail
        { code := "BACKEND_CONNECTION_ERROR",
          message := "Failed to connect to " ++ "http://localhost:8000/invoke_basic_model" ++
            ". Please check if the service is running." }) ∧
    (generateResponse
        { messages := [{ sender := "user", content := "Hello", timestamp := 0,
                         role := some Role.user }],
          config := none, maxContextMessages := none }
        (ProviderOutcome.thrown
          (clientPipelineError "http://localhost:8000/invoke_basic_model"
            (ClientError.httpError 500 "Internal Server Error" "model exploded"))) =
      ServiceResult.fail
        { code := "BACKEND_API_ERROR",
          message := "AI Backend API error (" ++ toString 500 ++ "): " ++
            (if ("model exploded" : String) = "" then "Internal Server Error"
             else "model exploded") }) ∧
    (generateResponse
        { messages := [{ sender := "user", content := "Hello", timestamp := 0,
                         role := some Role.user }],
          config := none, maxContextMessages := none }
        (ProviderOutcome.thrown
          (clientPipelineError "http://localhost:8000/invoke_basic_model"
            (ClientError.otherError "Backend returned an empty response"))) =
      ServiceResult.fail
        { code := "AI_SERVICE_ERROR", message := "Backend returned an empty response" }) :=
  ⟨((chat_service_error_classification _ _ (by decide) (by decide)).1
      "fetch failed" (by decide)).1,
   (chat_service_error_classification _ _ (by decide) (by decide)).2.1
      500 "Internal Server Error" "model exploded" (by decide),
   (chat_service_error_classification _ _ (by decide) (by decide)).2.2
      "Backend returned an empty response" (by decide) (by decide)⟩

/-! ## C3: single-system-message invariant -/

/-- Working form of the invariant: no message after the head has role
`system` (so at most one system message exists and it can only sit at
index 0). -/
def SysInv (l : List Message) : Prop :=
  ∀ m ∈ l.tail, m.role ≠ some Role.system

/-- The invariant in the claim's shape: at most one message with role
`system`, and when present it is at index 0. -/
def SystemAtMostOneAtHead (l : List Message) : Prop :=
  (l.filter (fun m => m.role = some Role.system)).length ≤ 1 ∧
  ∀ i : Fin l.length, (l.get i).role = some Role.system → (i : Nat) = 0

lemma systemAtMostOneAtHead_iff (l : List Message) :
    SystemAtMostOneAtHead l ↔ SysInv l := by
  cases l with
  | nil =>
    constructor
    · intro _ m hm; simp at hm
    · intro _; exact ⟨by simp, fun i => i.elim0⟩
  | cons a rest =>
    constructor
    · intro h m hm hsys
      rw [List.tail_cons] at hm
      obtain ⟨j, hj⟩ := List.mem_iff_get.mp hm
      have h2 := h.2 ⟨j.val + 1, Nat.succ_lt_succ j.isLt⟩
      simp only [List.get_cons_succ] at h2
      have := h2 (by rw [Fin.eta, hj]; exact hsys)
      simp at this
    · intro h
      constructor
      · have hrest : rest.filter (fun m => m.role = some Role.system) = [] :=
          List.filter_eq_nil_iff.mpr (fun m hm => by
            simpa using h m (by rw [List.tail_cons]; exact hm))
        rw [List.filter_cons]
        split <;> simp [hrest]
      · intro i hsys
        match i with
        | ⟨0, _⟩ => rfl
        | ⟨j + 1, hj⟩ =>
          exfalso
          exact h _ (by rw [List.tail_cons]; exact List.get_mem rest j (Nat.lt_of_succ_lt_succ hj)) hsys

lemma sysInv_of_no_system (l : List Message)
    (h : ∀ m ∈ l, m.role ≠ some Role.system) : SysInv l :=
  fun m hm => h m (List.mem_of_mem_tail hm)

lemma sysInv_push (l : List Message) (m : Message) (hm : m.role ≠ some Role.system)
    (h : SysInv l) : SysInv (l ++ [m]) := by
  cases l with
  | nil => intro x hx; simp at hx
  | cons a rest =>
    intro x hx
    rw [List.cons_append, List.tail_cons] at hx
    rcases List.mem_append.mp hx with h1 | h1
    · exact h x (by rw [List.tail_cons]; exact h1)
    · simp at h1; subst h1; exact hm

lemma sysInv_appendUpsertSystem (msgs : List Message) (sp : Option String) (now : Nat)
    (h : SysInv msgs) : SysInv (appendUpsertSystem msgs sp now) := by
  unfold appendUpsertSystem
  split
  · rename_i hc
    intro m hm
    rw [List.tail_cons] at hm
    have := List.any_eq_false.mp hc.2 m hm
    simpa using this
  · exact h

lemma appendUserMessage_role_ne (content sender : String) (now : Nat) :
    (appendUserMessage content sender now).role ≠ some Role.system := by
  simp only [appendUserMessage]
  split_ifs <;> simp

lemma appendAIMessage_role (gen : AppendGen) (now : Nat) :
    (appendAIMessage gen now).role = some Role.assistant := by
  cases gen <;> rfl

lemma editAIMessage_role (gen : EditGen) (now : Nat) :
    (editAIMessage gen now).role = some Role.assistant := by
  cases gen <;> rfl

lemma sysInv_appendMessage (msgs : List Message) (body : AppendBody) (now : Nat)
    (gen : AppendGen) (h : SysInv msgs) :
    ∀ l, appendMessage msgs body now gen = Except.ok l → SysInv l := by
  intro l hl
  unfold appendMessage at hl
  split at hl
  · simp at hl
  · split at hl <;> rw [Except.ok.injEq] at hl <;> subst hl
    · apply sysInv_push _ _ (by rw [appendAIMessage_role]; simp)
      exact sysInv_push _ _ (appendUserMessage_role_ne _ _ _)
        (sysInv_appendUpsertSystem _ _ _ h)
    · exact sysInv_push _ _ (appendUserMessage_role_ne _ _ _)
        (sysInv_appendUpsertSystem _ _ _ h)

lemma jsFindIndex_eq_none (p : Message → Bool) (l : List Message)
    (h : jsFindIndex p l = none) : ∀ x ∈ l, p x = false := by
  induction l with
  | nil => simp
  | cons a rest ih =>
    rw [jsFindIndex] at h
    split at h
    · simp at h
    · rename_i hpa
      intro x hx
      rcases List.mem_cons.mp hx with rfl | hx'
      · exact Bool.eq_false_iff.mpr hpa
      · have hnone : jsFindIndex p rest = none := by
          cases hr : jsFindIndex p rest with
          | none => rfl
          | some i => rw [hr] at h; simp at h
        exact ih hnone x hx'

lemma jsFindIndex_eq_some (p : Message → Bool) :
    ∀ (l : List Message) (i : Nat), jsFindIndex p l = some i →
      ∃ h : i < l.length, p (l.get ⟨i, h⟩) = true := by
  intro l
  induction l with
  | nil => intro i h; simp [jsFindIndex] at h
  | cons a rest ih =>
    intro i h
    rw [jsFindIndex] at h
    split at h
    · rename_i hpa
      rw [Option.some.injEq] at h
      subst h
      exact ⟨Nat.succ_pos _, hpa⟩
    · cases hr : jsFindIndex p rest with
      | none => rw [hr] at h; simp at h
      | some j =>
        rw [hr] at h; simp at h
        subst h
        obtain ⟨hj, hpj⟩ := ih j hr
        exact ⟨Nat.succ_lt_succ hj, hpj⟩

lemma sysInv_findIdx_zero (msgs : List Message) (h : SysInv msgs) (i : Nat)
    (hfi : jsFindIndex (fun m => decide (m.role = some Role.system)) msgs = some i) :
    i = 0 := by
  obtain ⟨hlt, hp⟩ := jsFindIndex_eq_some _ _ _ hfi
  cases msgs with
  | nil => simp at hlt
  | cons a rest =>
    cases i with
    | zero => rfl
    | succ j =>
      exfalso
      have hm : rest.get ⟨j, Nat.lt_of_succ_lt_succ hlt⟩ ∈ rest :=
        List.get_mem rest j (Nat.lt_of_succ_lt_succ hlt)
      exact h _ (by rw [List.tail_cons]; exact hm) (of_decide_eq_true hp)

lemma sysInv_editUpsertSystem (msgs : List Message) (sp : Option String) (now : Nat)
    (h : SysInv msgs) : SysInv (editUpsertSystem msgs sp now) := by
  cases sp with
  | none => exact h
  | some s =>
    cases hfi : jsFindIndex (fun m => decide (m.role = some Role.system)) msgs with
    | none =>
      by_cases ht : jsTrim s = ""
      · simpa [editUpsertSystem, hfi, ht] using h
      · have hns := jsFindIndex_eq_none _ _ hfi
        simp only [editUpsertSystem, hfi, ht, if_false, if_neg ht]
        intro m hm
        rw [List.tail_cons] at hm
        simpa using hns m hm
    | some i =>
      have hi0 : i = 0 := sysInv_findIdx_zero msgs h i hfi
      subst hi0
      obtain ⟨hlt, _⟩ := jsFindIndex_eq_some _ _ _ hfi
      cases msgs with
      | nil => simp at hlt
      | cons a rest =>
        by_cases ht : jsTrim s = ""
        · simp only [editUpsertSystem, hfi, ht, if_true, if_pos ht, List.eraseIdx_cons_zero]
          exact sysInv_of_no_system rest
            (fun m hm => h m (by rw [List.tail_cons]; exact hm))
        · simp only [editUpsertSystem, hfi, ht, if_false, if_neg ht, List.set_cons_zero]
          intro m hm
          rw [List.tail_cons] at hm
          exact h m (by rw [List.tail_cons]; exact hm)

lemma mem_overwriteAt_role (c : String) (now : Nat) :
    ∀ (l : List Message) (i : Nat) (m : Message), m ∈ overwriteAt l i c now →
      ∃ m' ∈ l, m.role = m'.role := by
  intro l
  induction l with
  | nil => intro i m hm; simp [overwriteAt] at hm
  | cons a rest ih =>
    intro i m hm
    cases i with
    | zero =>
      rw [overwriteAt] at hm
      rcases List.mem_cons.mp hm with rfl | hm'
      · exact ⟨a, List.mem_cons_self a rest, rfl⟩
      · exact ⟨m, List.mem_cons_of_mem _ hm', rfl⟩
    | succ j =>
      rw [overwriteAt] at hm
      rcases List.mem_cons.mp hm with rfl | hm'
      · exact ⟨m, List.mem_cons_self m rest, rfl⟩
      · obtain ⟨m', hm'', hrole⟩ := ih j m hm'
        exact ⟨m', List.mem_cons_of_mem _ hm'', hrole⟩

lemma sysInv_overwriteAt (l : List Message) (i : Nat) (c : String) (now : Nat)
    (h : SysInv l) : SysInv (overwriteAt l i c now) := by
  cases l with
  | nil => intro m hm; simp [overwriteAt] at hm
  | cons a rest =>
    cases i with
    | zero =>
      intro m hm
      rw [overwriteAt, List.tail_cons] at hm
      exact h m (by rw [List.tail_cons]; exact hm)
    | succ j =>
      intro m hm
      rw [overwriteAt, List.tail_cons] at hm
      obtain ⟨m', hm', hrole⟩ := mem_overwriteAt_role c now rest j m hm
      rw [hrole]
      exact h m' (by rw [List.tail_cons]; exact hm')

lemma sysInv_take (l : List Message) (n : Nat) (h : SysInv l) : SysInv (l.take n) := by
  cases l with
  | nil => intro m hm; simp at hm
  | cons a rest =>
    cases n with
    | zero => intro m hm; simp at hm
    | succ k =>
      intro m hm
      rw [List.take_succ_cons, List.tail_cons] at hm
      exact h m (by rw [List.tail_cons]; exact List.take_subset _ _ hm)

lemma sysInv_editMessage (msgs : List Message) (body : EditBody) (now : Nat)
    (gen : EditGen) (h : SysInv msgs) :
    ∀ l, editMessage msgs body now gen = Except.ok l → SysInv l := by
  intro l hl
  unfold editMessage at hl
  split at hl
  · simp at hl
  · split at hl
    · simp at hl
    · split at hl
      · simp at hl
      · split at hl
        · simp at hl
        · split at hl
          · simp at hl
          · rw [Except.ok.injEq] at hl
            subst hl
            apply sysInv_push _ _ (by rw [editAIMessage_role]; simp)
            exact sysInv_take _ _
              (sysInv_overwriteAt _ _ _ _ (sysInv_editUpsertSystem _ _ _ h))

lemma sysInv_applyOp (msgs : List Message) (now : Nat) (op : Op) (h : SysInv msgs) :
    SysInv (applyOp msgs now op) := by
  cases op with
  | append body gen =>
    cases happ : appendMessage msgs body now gen with
    | ok l => simpa [applyOp, happ] using sysInv_appendMessage msgs body now gen h l happ
    | error e => simpa [applyOp, happ] using h
  | edit body gen =>
    cases happ : editMessage msgs body now gen with
    | ok l => simpa [applyOp, happ] using sysInv_editMessage msgs body now gen h l happ
    | error e => simpa [applyOp, happ] using h

/-- C3: for every conversation initially satisfying the invariant, after
any sequence of append-message and edit-message operations with arbitrary
`systemPrompt` values (omitted, empty, or non-empty) and arbitrary
generation outcomes, the message sequence contains at most one message
with role `system`, and when present it is at index 0. -/
theorem single_system_message_invariant (msgs : List Message) (now : Nat) (ops : List Op)
    (h : SystemAtMostOneAtHead msgs) :
    SystemAtMostOneAtHead (runOps msgs now ops) := by
  rw [systemAtMostOneAtHead_iff] at h ⊢
  induction ops generalizing msgs with
  | nil => exact h
  | cons op rest ih =>
    have hstep : runOps msgs now (op :: rest) = runOps (applyOp msgs now op) now rest := rfl
    rw [hstep]
    exact ih _ (sysInv_applyOp _ _ _ h)

/-- Witness for C3: an empty conversation run through an append (adding a
system prompt) followed by an edit whose empty system prompt removes it
and whose generation fails. -/
theorem single_system_message_invariant_witness :
    SystemAtMostOneAtHead
      (runOps [] 0
        [Op.append { content := "Hi", sender := "user", systemPrompt := some "Be terse." }
           (AppendGen.ok "resp"),
         Op.edit { messageIndex := 0, newContent := "Bye", systemPrompt := some "" }
           (EditGen.svcErr "down")]) :=
  single_system_message_invariant [] 0 _ ⟨by simp, fun i => i.elim0⟩

/-! ## Visibility lemmas for the edit route (C4, C5, C6) -/

lemma visible_cons_vis (m : Message) (rest : List Message) (h : isVisible m = true) :
    visibleMessages (m :: rest) = m :: visibleMessages rest := by
  simp [visibleMessages, List.filter_cons, h]

lemma visible_cons_invis (m : Message) (rest : List Message) (h : isVisible m = false) :
    visibleMessages (m :: rest) = visibleMessages rest := by
  simp [visibleMessages, List.filter_cons, h]

lemma visible_append (l1 l2 : List Message) :
    visibleMessages (l1 ++ l2) = visibleMessages l1 ++ visibleMessages l2 := by
  simp [visibleMessages, List.filter_append]

lemma isVisible_createSystemMessage (s : String) (now : Nat) :
    isVisible (createSystemMessage s now) = false := rfl

lemma visible_eraseIdx_invis :
    ∀ (l : List Message) (i : Nat) (h : i < l.length),
      isVisible (l.get ⟨i, h⟩) = false →
      visibleMessages (l.eraseIdx i) = visibleMessages l := by
  intro l
  induction l with
  | nil => intro i h; simp at h
  | cons a rest ih =>
    intro i h hv
    cases i with
    | zero =>
      rw [List.eraseIdx_cons_zero]
      exact (visible_cons_invis a rest hv).symm
    | succ j =>
      rw [List.eraseIdx_cons_succ]
      have hj := Nat.lt_of_succ_lt_succ h
      cases ha : isVisible a with
      | true =>
        rw [visible_cons_vis a _ ha, visible_cons_vis a rest ha, ih j hj hv]
      | false =>
        rw [visible_cons_invis a _ ha, visible_cons_invis a rest ha, ih j hj hv]

lemma visible_set_invis :
    ∀ (l : List Message) (i : Nat) (m' : Message) (h : i < l.length),
      isVisible (l.get ⟨i, h⟩) = false → isVisible m' = false →
      visibleMessages (l.set i m') = visibleMessages l := by
  intro l
  induction l with
  | nil => intro i m' h; simp at h
  | cons a rest ih =>
    intro i m' h hv hm'
    cases i with
    | zero =>
      rw [List.set_cons_zero]
      rw [visible_cons_invis m' rest hm', visible_cons_invis a rest hv]
    | succ j =>
      rw [List.set_cons_succ]
      have hj := Nat.lt_of_succ_lt_succ h
      cases ha : isVisible a with
      | true =>
        rw [visible_cons_vis a _ ha, visible_cons_vis a rest ha, ih j m' hj hv hm']
      | false =>
        rw [visible_cons_invis a _ ha, visible_cons_invis a rest ha, ih j m' hj hv hm']

lemma isVisible_false_of_system (m : Message) (h : m.role = some Role.system) :
    isVisible m = false := by
  simp [isVisible, h]

/-- The edit route's system-prompt step only touches system messages, so
the visible messages are unchanged. -/
lemma visible_editUpsertSystem (msgs : List Message) (sp : Option String) (now : Nat) :
    visibleMessages (editUpsertSystem msgs sp now) = visibleMessages msgs := by
  cases sp with
  | none => rfl
  | some s =>
    cases hfi : jsFindIndex (fun m => decide (m.role = some Role.system)) msgs with
    | none =>
      by_cases ht : jsTrim s = ""
      · simp [editUpsertSystem, hfi, ht]
      · simp only [editUpsertSystem, hfi, if_neg ht]
        exact visible_cons_invis _ _ (isVisible_createSystemMessage s now)
    | some i =>
      obtain ⟨hlt, hp⟩ := jsFindIndex_eq_some _ _ _ hfi
      have hinv : isVisible (msgs.get ⟨i, hlt⟩) = false :=
        isVisible_false_of_system _ (of_decide_eq_true hp)
      by_cases ht : jsTrim s = ""
      · simp only [editUpsertSystem, hfi, if_pos ht]
        exact visible_eraseIdx_invis msgs i hlt hinv
      · simp only [editUpsertSystem, hfi, if_neg ht]
        exact visible_set_invis msgs i _ hlt hinv (isVisible_createSystemMessage s now)

lemma length_overwriteAt (c : String) (now : Nat) :
    ∀ (l : List Message) (i : Nat), (overwriteAt l i c now).length = l.length := by
  intro l
  induction l with
  | nil => intro i; rfl
  | cons a rest ih =>
    intro i
    cases i with
    | zero => rfl
    | succ j => rw [overwriteAt]; simp [ih j]

/-- Core spec of the edit route's index translation, overwrite and
truncation: for the `k`-th visible message `t`, the loop finds an
absolute index `i`, and truncating the overwritten list after `i` keeps
exactly the first `k` visible messages followed by the edited one. -/
lemma findVisibleIdx_spec (c : String) (now : Nat) :
    ∀ (l : List Message) (k : Nat) (t : Message),
      (visibleMessages l)[k]? = some t →
      ∃ i, findVisibleIdx l k = some i ∧ i < l.length ∧
        visibleMessages ((overwriteAt l i c now).take (i + 1)) =
          (visibleMessages l).take k ++ [{ t with content := c, timestamp := now }] := by
  intro l
  induction l with
  | nil => intro k t ht; simp [visibleMessages] at ht
  | cons m rest ih =>
    intro k t ht
    cases hv : isVisible m with
    | true =>
      rw [visible_cons_vis m rest hv] at ht
      cases k with
      | zero =>
        rw [List.getElem?_cons_zero, Option.some.injEq] at ht
        subst ht
        refine ⟨0, by rw [findVisibleIdx]; simp [hv], Nat.succ_pos _, ?_⟩
        rw [overwriteAt, List.take_succ_cons, List.take_zero]
        have hvm : isVisible { m with content := c, timestamp := now } = true := hv
        rw [visible_cons_vis _ _ hvm, visible_cons_vis m rest hv]
        simp [visibleMessages]
      | succ j =>
        rw [List.getElem?_cons_succ] at ht
        obtain ⟨i, hfi, hlt, hspec⟩ := ih j t ht
        refine ⟨i + 1, ?_, Nat.succ_lt_succ hlt, ?_⟩
        · rw [findVisibleIdx]; simp [hv, hfi]
        · rw [overwriteAt, List.take_succ_cons, visible_cons_vis _ _ hv, hspec,
            visible_cons_vis m rest hv, List.take_succ_cons, List.cons_append]
    | false =>
      rw [visible_cons_invis m rest hv] at ht
      obtain ⟨i, hfi, hlt, hspec⟩ := ih k t ht
      refine ⟨i + 1, ?_, Nat.succ_lt_succ hlt, ?_⟩
      · rw [findVisibleIdx]; simp [hv, hfi]
      · rw [overwriteAt, List.take_succ_cons, visible_cons_invis _ _ hv, hspec,
          visible_cons_invis m rest hv]

/-- Reduction of the edit route on a valid edit target: the guards pass
and the result is the truncated, overwritten list plus the generation
message — for every generation outcome. -/
lemma editMessage_ok_shape (msgs : List Message) (k : Nat) (t : Message)
    (newContent : String) (sp : Option String) (now : Nat) (gen : EditGen)
    (ht : (visibleMessages msgs)[k]? = some t) (hsender : t.sender = "user")
    (hnc : newContent ≠ "") :
    ∃ i, findVisibleIdx (editUpsertSystem msgs sp now) k = some i ∧
      editMessage msgs
          { messageIndex := (k : Int), newContent := newContent, systemPrompt := sp }
          now gen =
        Except.ok ((overwriteAt (editUpsertSystem msgs sp now) i
          (jsTrim newContent) now).take (i + 1) ++ [editAIMessage gen now]) := by
  have hk : k < (visibleMessages msgs).length := by
    by_contra hk
    push_neg at hk
    rw [List.getElem?_eq_none hk] at ht
    simp at ht
  have ht1 : (visibleMessages (editUpsertSystem msgs sp now))[k]? = some t := by
    rw [visible_editUpsertSystem]; exact ht
  obtain ⟨i, hfi, hlt, _⟩ := findVisibleIdx_spec (jsTrim newContent) now _ k t ht1
  refine ⟨i, hfi, ?_⟩
  unfold editMessage
  rw [if_neg hnc]
  have hg1 : ¬(((k : Nat) : Int) < 0 ∨
      ((visibleMessages msgs).length : Int) ≤ ((k : Nat) : Int)) := by
    push_neg
    constructor
    · omega
    · omega
  rw [if_neg hg1]
  have htn : ((k : Nat) : Int).toNat = k := by omega
  rw [htn, ht]
  simp [hsender, hfi]

/-! ## C4: edit truncation -/

/-- C4: for every conversation and valid visible index `k` naming a user
message, the edit operation overwrites that message's content (trimmed)
and timestamp, discards every message — visible or hidden — after it
(the full length collapses to the found absolute index plus the edited
message and one response), and on generation success appends exactly one
assistant message, so the visible count becomes `k + 2`; the visible
prefix before `k` is untouched. -/
theorem edit_truncation (msgs : List Message) (k : Nat) (t : Message)
    (newContent s : String) (sp : Option String) (now : Nat)
    (ht : (visibleMessages msgs)[k]? = some t)
    (hsender : t.sender = "user")
    (hnc : newContent ≠ "") :
    ∃ l', editMessage msgs
        { messageIndex := (k : Int), newContent := newContent, systemPrompt := sp }
        now (EditGen.ok s) = Except.ok l' ∧
      (visibleMessages l').length = k + 2 ∧
      l'.getLast? = some (createAssistantMessage s now) ∧
      (visibleMessages l')[k]? =
        some { t with content := jsTrim newContent, timestamp := now } ∧
      (∀ j, j < k → (visibleMessages l')[j]? = (visibleMessages msgs)[j]?) ∧
      ∃ i, findVisibleIdx (editUpsertSystem msgs sp now) k = some i ∧
        l'.length = i + 2 := by
  have hk : k < (visibleMessages msgs).length := by
    by_contra hk
    push_neg at hk
    rw [List.getElem?_eq_none hk] at ht
    simp at ht
  have hvu := visible_editUpsertSystem msgs sp now
  have ht1 : (visibleMessages (editUpsertSystem msgs sp now))[k]? = some t := by
    rw [hvu]; exact ht
  obtain ⟨i, hfi, hlt, hspec⟩ := findVisibleIdx_spec (jsTrim newContent) now _ k t ht1
  obtain ⟨i2, hfi2, heq⟩ :=
    editMessage_ok_shape msgs k t newContent sp now (EditGen.ok s) ht hsender hnc
  rw [hfi] at hfi2
  obtain rfl : i = i2 := by simpa using hfi2
  have hva : visibleMessages [editAIMessage (EditGen.ok s) now] =
      [editAIMessage (EditGen.ok s) now] := rfl
  have hlt2 : ((visibleMessages (editUpsertSystem msgs sp now)).take k).length = k := by
    rw [List.length_take, hvu]; omega
  refine ⟨_, heq, ?_, ?_, ?_, ?_, ⟨i, hfi, ?_⟩⟩
  · rw [visible_append, hspec, hva]
    simp only [List.length_append, List.length_take, List.length_cons, List.length_nil]
    rw [hvu]
    omega
  · exact List.getLast?_concat _
  · rw [visible_append, hspec, hva, List.append_assoc,
      List.getElem?_append_right (le_of_eq hlt2), hlt2]
    simp
  · intro j hj
    rw [visible_append, hspec, hva, List.append_assoc, List.getElem?_append,
      if_pos (by rw [hlt2]; exact hj), List.getElem?_take, if_pos hj, hvu]
  · rw [List.length_append, List.length_take, length_overwriteAt]
    simp only [List.length_cons, List.length_nil]
    omega

/-- Witness for C4 at a concrete conversation: `[system, user q1,
assistant r1, user q2, assistant r2]`, editing visible index 2. -/
theorem edit_truncation_witness :
    ∃ l', editMessage
        [{ sender := "ai", content := "be terse", timestamp := 0, role := some Role.system },
         { sender := "user", content := "q1", timestamp := 0, role := some Role.user },
         { sender := "ai", content := "r1", timestamp := 0, role := some Role.assistant },
         { sender := "user", content := "q2", timestamp := 0, role := some Role.user },
         { sender := "ai", content := "r2", timestamp := 0, role := some Role.assistant }]
        { messageIndex := ((2 : Nat) : Int), newContent := " q2 edited ",
          systemPrompt := none }
        9 (EditGen.ok "newResp") = Except.ok l' ∧
      (visibleMessages l').length = 2 + 2 ∧
      l'.getLast? = some (createAssistantMessage "newResp" 9) ∧
      (visibleMessages l')[2]? =
        some
          { sender := "user", content := jsTrim " q2 edited ", timestamp := 9,
            role := some Role.user } ∧
      (∀ j, j < 2 → (visibleMessages l')[j]? =
        (visibleMessages
          [{ sender := "ai", content := "be terse", timestamp := 0,
             role := some Role.system },
           { sender := "user", content := "q1", timestamp := 0, role := some Role.user },
           { sender := "ai", content := "r1", timestamp := 0, role := some Role.assistant },
           { sender := "user", content := "q2", timestamp := 0, role := some Role.user },
           { sender := "ai", content := "r2", timestamp := 0,
             role := some Role.assistant }])[j]?) ∧
      ∃ i, findVisibleIdx
          (editUpsertSystem
            [{ sender := "ai", content := "be terse", timestamp := 0,
               role := some Role.system },
             { sender := "user", content := "q1", timestamp := 0, role := some Role.user },
             { sender := "ai", content := "r1", timestamp := 0, role := some Role.assistant },
             { sender := "user", content := "q2", timestamp := 0, role := some Role.user },
             { sender := "ai", content := "r2", timestamp := 0,
               role := some Role.assistant }] none 9) 2 = some i ∧
        l'.length = i + 2 :=
  edit_truncation _ 2
    { sender := "user", content := "q2", timestamp := 0, role := some Role.user }
    " q2 edited " "newResp" none 9 (by decide) (by decide) (by decide)

/-! ## C5: edit guards reject without mutation -/

/-- C5: an edit request whose visible index is out of range, or whose
target message was not sent by the user, is answered with a structured
validation error and the stored conversation is left unmodified. -/
theorem edit_guard_rejects_without_mutation (msgs : List Message) (body : EditBody)
    (now : Nat) (gen : EditGen)
    (h : (body.messageIndex < 0 ∨
        ((visibleMessages msgs).length : Int) ≤ body.messageIndex) ∨
      (∃ t, (visibleMessages msgs)[body.messageIndex.toNat]? = some t ∧
        t.sender ≠ "user")) :
    (∃ e, editMessage msgs body now gen = Except.error e) ∧
      applyOp msgs now (Op.edit body gen) = msgs := by
  have herr : ∃ e, editMessage msgs body now gen = Except.error e := by
    unfold editMessage
    by_cases hnc : body.newContent = ""
    · rw [if_pos hnc]; exact ⟨_, rfl⟩
    · rw [if_neg hnc]
      rcases h with hrange | ⟨t, hsome, hsender⟩
      · rw [if_pos hrange]; exact ⟨_, rfl⟩
      · by_cases hrange : body.messageIndex < 0 ∨
          ((visibleMessages msgs).length : Int) ≤ body.messageIndex
        · rw [if_pos hrange]; exact ⟨_, rfl⟩
        · rw [if_neg hrange, hsome]
          exact ⟨"Can only edit user messages", by simp [hsender]⟩
  obtain ⟨e, he⟩ := herr
  exact ⟨⟨e, he⟩, by simp [applyOp, he]⟩

/-- Witness for C5: editing visible index 1 (an assistant message). -/
theorem edit_guard_rejects_without_mutation_witness :
    (∃ e, editMessage
        [{ sender := "user", content := "q1", timestamp := 0, role := some Role.user },
         { sender := "ai", content := "r1", timestamp := 0, role := some Role.assistant }]
        { messageIndex := 1, newContent := "x", systemPrompt := none } 5
        (EditGen.ok "r") = Except.error e) ∧
      applyOp
        [{ sender := "user", content := "q1", timestamp := 0, role := some Role.user },
         { sender := "ai", content := "r1", timestamp := 0, role := some Role.assistant }]
        5 (Op.edit { messageIndex := 1, newContent := "x", systemPrompt := none }
             (EditGen.ok "r")) =
      [{ sender := "user", content := "q1", timestamp := 0, role := some Role.user },
       { sender := "ai", content := "r1", timestamp := 0, role := some Role.assistant }] :=
  edit_guard_rejects_without_mutation _ _ 5 (EditGen.ok "r")
    (Or.inr ⟨{ sender := "ai", content := "r1", timestamp := 0,
               role := some Role.assistant }, by decide, by decide⟩)

/-! ## C6: generation failures are absorbed as visible error messages -/

/-- C6: when the message mutation itself is valid and AI generation
fails, both the append route and the edit route absorb the failure as a
persisted, visible assistant message placed last, whose content starts
with the `'❌'` character, and the operation still returns the mutated
conversation as a success. -/
theorem generation_failure_absorbed (msgs : List Message) (now : Nat) :
    (∀ (content : String) (sp : Option String) (m : String), content ≠ "" →
      ∃ l', appendMessage msgs
          { content := content, sender := "user", systemPrompt := sp }
          now (AppendGen.thrown m) = Except.ok l' ∧
        l'.getLast? = some
          { sender := "ai", content := "❌ **AI Error**: " ++ m,
            timestamp := now, role := some Role.assistant } ∧
        ("❌ **AI Error**: " ++ m).data.head? = some '❌' ∧
        isVisible
          { sender := "ai", content := "❌ **AI Error**: " ++ m,
            timestamp := now, role := some Role.assistant } = true) ∧
    (∀ (k : Nat) (t : Message) (newContent : String) (sp : Option String) (gen : EditGen),
      (visibleMessages msgs)[k]? = some t → t.sender = "user" → newContent ≠ "" →
      (∀ s, gen ≠ EditGen.ok s) →
      ∃ l', editMessage msgs
          { messageIndex := (k : Int), newContent := newContent, systemPrompt := sp }
          now gen = Except.ok l' ∧
        l'.getLast? = some (editAIMessage gen now) ∧
        (editAIMessage gen now).role = some Role.assistant ∧
        isVisible (editAIMessage gen now) = true ∧
        ∃ raw, editAIMessage gen now = createAssistantMessage raw now ∧
          raw.data.head? = some '❌') := by
  constructor
  · intro content sp m hc
    unfold appendMessage
    rw [if_neg (by simp [hc]), if_pos rfl]
    refine ⟨_, rfl, List.getLast?_concat _, ?_, rfl⟩
    have h0 : ("❌ **AI Error**: ").data = '❌' :: " **AI Error**: ".data := by decide
    rw [String.data_append, h0]
    rfl
  · intro k t newContent sp gen ht hsender hnc hgen
    obtain ⟨i, hfi, heq⟩ :=
      editMessage_ok_shape msgs k t newContent sp now gen ht hsender hnc
    refine ⟨_, heq, List.getLast?_concat _, editAIMessage_role gen now,
      by cases gen <;> rfl, ?_⟩
    cases gen with
    | ok s => exact absurd rfl (hgen s)
    | svcErr m =>
      refine ⟨"❌ **AI Error**: " ++ (if m = "" then "Unknown AI service error" else m),
        rfl, ?_⟩
      have h0 : ("❌ **AI Error**: ").data = '❌' :: " **AI Error**: ".data := by decide
      rw [String.data_append, h0]
      rfl
    | thrown =>
      exact ⟨"❌ **Unexpected Error**: Failed to generate AI response. Please try again.",
        rfl, by decide⟩

/-- Witness for C6: a failing append on a one-message conversation and a
failing edit of its user message. -/
theorem generation_failure_absorbed_witness :
    (∃ l', appendMessage
        [{ sender := "user", content := "q1", timestamp := 0, role := some Role.user }]
        { content := "hello", sender := "user", systemPrompt := none }
        7 (AppendGen.thrown "backend down") = Except.ok l' ∧
      l'.getLast? = some
        { sender := "ai", content := "❌ **AI Error**: " ++ "backend down",
          timestamp := 7, role := some Role.assistant } ∧
      ("❌ **AI Error**: " ++ "backend down").data.head? = some '❌' ∧
      isVisible
        { sender := "ai", content := "❌ **AI Error**: " ++ "backend down",
          timestamp := 7, role := some Role.assistant } = true) ∧
    (∃ l', editMessage
        [{ sender := "user", content := "q1", timestamp := 0, role := some Role.user }]
        { messageIndex := ((0 : Nat) : Int), newContent := "fixed", systemPrompt := none }
        7 (EditGen.svcErr "backend down") = Except.ok l' ∧
      l'.getLast? = some (editAIMessage (EditGen.svcErr "backend down") 7) ∧
      (editAIMessage (EditGen.svcErr "backend down") 7).role = some Role.assistant ∧
      isVisible (editAIMessage (EditGen.svcErr "backend down") 7) = true ∧
      ∃ raw, editAIMessage (EditGen.svcErr "backend down") 7 =
          createAssistantMessage raw 7 ∧
        raw.data.head? = some '❌') :=
  ⟨(generation_failure_absorbed
      [{ sender := "user", content := "q1", timestamp := 0, role := some Role.user }] 7).1
        "hello" none "backend down" (by decide),
   (generation_failure_absorbed
      [{ sender := "user", content := "q1", timestamp := 0, role := some Role.user }] 7).2
        0 { sender := "user", content := "q1", timestamp := 0, role := some Role.user }
        "fixed" none (EditGen.svcErr "backend down") (by decide) (by decide) (by decide)
        (fun s h => by simp at h)⟩

end ChatApp
